import Mathlib

/-
Verification of the taifex data-pipeline ingestion components
(`src/pipeline/parser.py`, `src/pipeline/database.py`,
`src/pipeline/file_handler.py`, `src/orchestrator.py`) against their
specification.  The Python code is shallowly embedded: Python strings are
Lean `String`s, Python string primitives (`strip`, `lower`, `endswith`,
substring membership, splitting) are modelled as structural functions over
the underlying character list so that every definition is executable by the
kernel; fallible I/O and the sqlite engine are modelled by explicit inputs
describing what the outside world does (file contents, engine faults).
-/

/-! ## Python string primitives, modelled over `List Char` -/

/-- Python `str.strip()` with no argument: drop leading and trailing
whitespace characters.  (Python strips a slightly larger whitespace class
than `Char.isWhitespace`, e.g. vertical tab; the difference is irrelevant
for the CSV texts handled here.) -/
def pyStrip (s : String) : String :=
  String.mk (((s.data.dropWhile Char.isWhitespace).reverse.dropWhile Char.isWhitespace).reverse)

/-- Python `str.lower()` (ASCII-adequate model). -/
def pyLower (s : String) : String :=
  String.mk (s.data.map Char.toLower)

/-- Python `str.endswith(suffix)`. -/
def pyEndsWith (s suffix : String) : Bool :=
  List.isSuffixOf suffix.data s.data

/-- Python `str.startswith(pre)`. -/
def pyStartsWith (s pre : String) : Bool :=
  List.isPrefixOf pre.data s.data

/-- Occurrence test on character lists: `patOccurs pat cs` is true iff
`pat` occurs contiguously inside `cs`. -/
def patOccurs (pat : List Char) : List Char → Bool
  | [] => pat.isEmpty
  | c :: rest => List.isPrefixOf pat (c :: rest) || patOccurs pat rest

/-- Python `pat in s` (substring membership). -/
def pyContains (s pat : String) : Bool :=
  patOccurs pat.data s.data

/-- Split a character list at every occurrence of the single-character
delimiter `delim`.  Always returns at least one (possibly empty) cell,
mirroring how the `csv` reader splits one quote-free line into cells. -/
def splitCells (delim : Char) : List Char → List (List Char)
  | [] => [[]]
  | c :: rest =>
    let r := splitCells delim rest
    if c = delim then [] :: r
    else
      match r with
      | [] => [[c]]
      | cell :: cells => (c :: cell) :: cells

/-- One line of delimited text, split into its cells.  Models what
`csv.reader` produces for a quote-free line with delimiter `delim`.
(For the empty line `csv.reader` yields `[]` while this model yields
`[""]`; both are all-blank rows and are treated identically by every
consumer below.) -/
def splitRow (delim : Char) (line : String) : List String :=
  (splitCells delim line.data).map String.mk

/-- The line sequence of a text file's contents (split at newlines).  A
trailing newline contributes a final empty line, which every consumer
below discards as blank. -/
def linesOf (content : String) : List String :=
  (splitCells '\n' content.data).map String.mk

/-! ## CSV Structural Parser (`src/pipeline/parser.py`, `parse_csv_file`) -/

/-- The parser's result shape: `{"header": ..., "rows": ...}`. -/
structure ParsedTable where
  header : List String
  rows : List (List String)
deriving DecidableEq, Repr

/-- What reading the CSV file yields: the failure modes intercepted by
`parse_csv_file` (`os.path.exists` check, `UnicodeDecodeError`,
`csv.Error`, any other exception), or the file's line sequence. -/
inductive FileRead where
  | absent
  | decodeError
  | csvError
  | otherError
  | ok (lines : List String)
deriving DecidableEq

/-- Python `any(cell.strip() for cell in row)`: some cell is non-blank
after stripping (parser.py line 50). -/
def rowHasContent (cells : List String) : Bool :=
  cells.any (fun c => !((pyStrip c).data.isEmpty))

/-- The header-search loop (parser.py lines 49-52): skip lines until the
first one whose cells are not all blank; that line's stripped cells become
the header and the remaining lines are the data region. -/
def findHeader (delim : Char) : List String → Option (List String × List String)
  | [] => none
  | l :: ls =>
    let cells := splitRow delim l
    if rowHasContent cells then some (cells.map pyStrip, ls)
    else findHeader delim ls

/-- `cleaned_row = [cell.strip() for cell in row]` (parser.py line 60). -/
def cleanRow (delim : Char) (line : String) : List String :=
  (splitRow delim line).map pyStrip

/-- Python `any(cleaned_row)` (parser.py line 61): some already-stripped
cell is a non-empty string. -/
def keepRow (r : List String) : Bool :=
  r.any (fun c => !(c.data.isEmpty))

/-- The pure core of `parse_csv_file` on the line sequence of a readable
file: find the header, then retain every subsequent cleaned row that is
not entirely blank (parser.py lines 49-65). -/
def parseLines (delim : Char) (lines : List String) : ParsedTable :=
  match findHeader delim lines with
  | none => { header := [], rows := [] }
  | some (h, rest) => { header := h, rows := (rest.map (cleanRow delim)).filter keepRow }

/-- `parse_csv_file` (parser.py lines 22-75): every intercepted failure
(file absent, decode error, csv error, unexpected exception) and the
no-header case return the sentinel `{"header": [], "rows": []}`; otherwise
the pure parse of the file's lines. -/
def parse_csv_file (delim : Char) (f : FileRead) : ParsedTable :=
  match f with
  | .ok lines => parseLines delim lines
  | _ => { header := [], rows := [] }

/-! ## Generic Row Store (`src/pipeline/database.py`, `insert_structured_data`) -/

/-- One row of the `generic_data` table as written by one insert call
(`id` and `imported_at` are supplied by the engine and carry no pipeline
logic).  `row_content` is the `dict(zip(header, row_values))` payload that
is serialized to JSON (database.py lines 85-87); zipping keeps the
column-to-value association without committing to a JSON syntax. -/
structure GDRecord where
  file_source : String
  data_type : String
  row_number : Nat
  row_content : List (String × String)
deriving DecidableEq, Repr

/-- The sqlite engine's behaviour during one `insert_structured_data`
call: whether `sqlite3.connect` raises and whether the final
`conn.commit()` raises.  The per-row `cursor.execute(insert_sql, ...)`
has no fault parameter because it raises unconditionally: the
`insert_sql` literal (database.py line 93) is written with four quote
characters, i.e. a Python triple-quote opener followed by one stray
quote that becomes the first character of the string, so the SQL text
sent to sqlite is malformed and every `execute` raises
`sqlite3.OperationalError` (a `sqlite3.Error`). -/
structure Engine where
  connectFails : Bool
  commitFails : Bool
deriving DecidableEq

/-- An engine with no connect/commit fault of its own (the per-row
statements still fail, as always, on the malformed `insert_sql`). -/
def okEngine : Engine :=
  { connectFails := false, commitFails := false }

/-- An engine whose `commit` raises. -/
def commitFailEngine : Engine :=
  { connectFails := false, commitFails := true }

/-- `init_db` (database.py lines 23-62).  `create_table_sql` (line 40)
has the same four-quote defect as `insert_sql`: the literal opens with a
stray quote, the `CREATE TABLE` text is malformed, `cursor.execute`
(line 50) raises `sqlite3.OperationalError`, the handler at lines 54-56
catches it and the function returns `False`.  A failing `connect` is
caught by the same handler.  So `init_db` returns `False` on every
call. -/
def init_db : Bool := false

/-- One iteration of the row loop (database.py lines 80-100), acting on
the accumulator (`inserted_count` so far, statements successfully
executed so far in the open transaction).  A length-mismatched row is
skipped (lines 81-83).  For a length-matching row the `json.dumps` of a
string-valued dict succeeds (the `TypeError` branch at lines 88-90 is
unreachable for string cells), and then `cursor.execute(insert_sql, ...)`
raises `sqlite3.Error` — the `insert_sql` text is malformed (stray
leading quote from the four-quote literal at line 93) — which is caught
at lines 99-100: the row is skipped and `inserted_count` is not
incremented.  No branch of the loop ever adds to the accumulator. -/
def insertStep (header : List String) (acc : Nat × List GDRecord)
    (p : Nat × List String) : Nat × List GDRecord :=
  if header.length != p.2.length then acc
  else acc

/-- `insert_structured_data` (database.py lines 64-121).  Inputs: the
engine's behaviour for this call, the durable table contents before the
call, and the function's Python arguments.  Output: the returned pair
`(success, inserted_count)` and the durable table contents after the
call.  Empty header: return `(False, 0)` (lines 67-69).  Empty rows:
return `(True, 0)` (lines 70-72).  A `sqlite3.Error` from `connect` is
caught by the outer handler with `inserted_count` still `0` (lines
111-114).  Otherwise the row loop runs; every iteration leaves the
accumulator unchanged (each length-matching row's `INSERT` raises on the
malformed `insert_sql` and is caught in the loop), so `inserted_count`
stays `0` and the transaction holds no successful statement.  If
`commit` raises, the outer handler rolls back and returns
`(False, inserted_count)` (lines 102, 111-114); on a successful commit
the (empty) set of executed statements becomes durable and the call
returns `(True, inserted_count)` (line 110).  Either way nothing is ever
durably stored. -/
def insert_structured_data (eng : Engine) (db : List GDRecord) (file_source data_type : String)
    (header : List String) (rows : List (List String)) : (Bool × Nat) × List GDRecord :=
  if header.isEmpty then ((false, 0), db)
  else if rows.isEmpty then ((true, 0), db)
  else if eng.connectFails then ((false, 0), db)
  else
    let res := rows.enum.foldl (insertStep header) (0, [])
    if eng.commitFails then ((false, res.1), db)
    else ((true, res.1), db ++ res.2)

/-- The records an `insert_structured_data` call adds to the durable
store: the suffix of the resulting table beyond the contents at entry. -/
def insertedRecords (eng : Engine) (db : List GDRecord) (fs dt : String)
    (header : List String) (rows : List (List String)) : List GDRecord :=
  (insert_structured_data eng db fs dt header rows).2.drop db.length

/-! ## Archive Extractor (`src/pipeline/file_handler.py`, `extract_archive`) -/

/-- What `patoolib.extract_archive` does for a fixed archive: raise, or
materialize a fixed set of member files (given as names relative to the
output directory; `patoolib` is deterministic for a fixed archive). -/
inductive ArchiveResult where
  | fail
  | ok (entries : List String)
deriving DecidableEq

/-- `extract_archive` (file_handler.py lines 48-81).  Input: the
archive's behaviour and the output directory's contents before the call;
output: the returned file list and the directory's contents after the
call.  Lines 59-61 destroy and recreate the output directory, so the
prior contents never influence the result; the walk (lines 64-68)
collects every materialized file whose name does not start with `"."`; on
an extraction error the directory is removed again and `[]` is returned
(lines 74-81). -/
def extract_archive (arch : ArchiveResult) (dirBefore : List String) :
    List String × List String :=
  let cleared : List String := []
  let _ := dirBefore
  match arch with
  | .fail => ([], cleared)
  | .ok entries =>
    let dirAfter := cleared ++ entries
    (dirAfter.filter (fun f => !(pyStartsWith f ".")), dirAfter)

/-! ## Pipeline Orchestrator (`src/orchestrator.py`, `process_single_file`) -/

/-- The one uncaught Python exception the modelled code can raise:
`TypeError` from evaluating `"text" in None` when
`get_file_mime_type` returns `None` (orchestrator.py line 113). -/
inductive PyErr where
  | typeError
deriving DecidableEq

/-- A member's status in the accumulated `processed_data_summary`
(成功 / 失敗 / 跳過). -/
inductive MStatus where
  | success
  | failed
  | skipped
deriving DecidableEq

/-- One entry of `processed_data_summary`. -/
structure SummaryEntry where
  source_filename : String
  status : MStatus
deriving DecidableEq

/-- One extracted member as the per-member loop sees it: its base name,
what `get_file_mime_type` returns for it (`none` models the detection
failure / `None` return, file_handler.py lines 31-46), what reading it
yields for the parser, and the engine behaviour of its insert call. -/
structure Member where
  name : String
  mime : Option String
  readResult : FileRead
  engine : Engine

/-- Orchestrator line 113:
`file_to_parse_name.lower().endswith(".csv") or "text" in
file_handler.get_file_mime_type(file_to_parse_path)`.  Python's `or`
short-circuits, so the mime lookup only happens when the name test fails;
if it returned `None`, `"text" in None` raises `TypeError`. -/
def is_likely_csv (name : String) (mime : Option String) : Except PyErr Bool :=
  if pyEndsWith (pyLower name) ".csv" then .ok true
  else
    match mime with
    | none => .error .typeError
    | some m => .ok (pyContains m "text")

/-- The state threaded through the per-member loop: `overall_success`,
the accumulated `processed_data_summary`, and the durable store
contents. -/
structure LoopState where
  overall_success : Bool
  summary : List SummaryEntry
  db : List GDRecord
deriving DecidableEq

/-- One iteration of the per-member loop (orchestrator.py lines 104-157):
a non-CSV-looking member is recorded as skipped (lines 115-118); an empty
parse header marks the member failed and `overall_success` false (lines
133-138); otherwise the store call decides between a success entry and a
failed entry with `overall_success` false (lines 144-157).  The
`TypeError` of line 113 propagates. -/
def processMember (st : LoopState) (m : Member) : Except PyErr LoopState :=
  match is_likely_csv m.name m.mime with
  | .error e => .error e
  | .ok false =>
    .ok ⟨st.overall_success, st.summary ++ [⟨m.name, .skipped⟩], st.db⟩
  | .ok true =>
    let parsed := parse_csv_file ',' m.readResult
    if parsed.header.isEmpty then
      .ok ⟨false, st.summary ++ [⟨m.name, .failed⟩], st.db⟩
    else
      let r := insert_structured_data m.engine st.db m.name "generic_csv" parsed.header parsed.rows
      if r.1.1 then
        .ok ⟨st.overall_success, st.summary ++ [⟨m.name, .success⟩], r.2⟩
      else
        .ok ⟨false, st.summary ++ [⟨m.name, .failed⟩], r.2⟩

/-- The per-member loop: process members in order, stopping only if an
iteration raises. -/
def processMembers (st : LoopState) : List Member → Except PyErr LoopState
  | [] => .ok st
  | m :: ms =>
    match processMember st m with
    | .error e => .error e
    | .ok st' => processMembers st' ms

/-- `settings.SUPPORTED_MIME_TYPES` (config/settings.py lines 37-55). -/
def SUPPORTED_MIME_TYPES : List (String × String) :=
  [("application/zip", "zip"),
   ("application/x-zip-compressed", "zip"),
   ("application/x-rar-compressed", "rar"),
   ("application/x-rar", "rar"),
   ("application/x-7z-compressed", "7z"),
   ("application/gzip", "gz"),
   ("application/x-gzip", "gz"),
   ("application/x-tar", "tar"),
   ("application/x-bzip2", "bz2"),
   ("text/plain", "text"),
   ("text/csv", "csv"),
   ("application/octet-stream", "binary"),
   ("application/vnd.ms-excel", "csv"),
   ("application/x-empty", "text"),
   ("inode/x-empty", "text")]

/-- `SUPPORTED_MIME_TYPES.get(mime)`: first-match association lookup. -/
def lookupCategory : List (String × String) → String → Option String
  | [], _ => none
  | (k, v) :: rest, mime => if k = mime then some v else lookupCategory rest mime

/-- The value of `overall_success` after stage 1 of `process_single_file`
(orchestrator.py lines 74-100): a `"error/..."` mime marks failure (lines
97-100); any non-empty extraction result is reported as success (lines
75-82); with no extracted files, a supported mime is a failure (an
archive that yielded nothing, or a text/csv whose copy failed — lines
83-92) while an unsupported mime is only informational (lines 93-96). -/
def stage1_success (detected_mime : String) (hasExtracted : Bool) : Bool :=
  if pyStartsWith detected_mime "error/" then false
  else if hasExtracted then true
  else
    match lookupCategory SUPPORTED_MIME_TYPES detected_mime with
    | some _ => false
    | none => true

/-- Equality of `Except` values is decidable when it is on both sides. -/
instance {ε α : Type} [DecidableEq ε] [DecidableEq α] : DecidableEq (Except ε α) := fun a b =>
  match a, b with
  | .error e, .error f =>
    if h : e = f then isTrue (congrArg Except.error h)
    else isFalse (fun hh => h (by injection hh))
  | .error _, .ok _ => isFalse (fun hh => Except.noConfusion hh)
  | .ok _, .error _ => isFalse (fun hh => Except.noConfusion hh)
  | .ok x, .ok y =>
    if h : x = y then isTrue (congrArg Except.ok h)
    else isFalse (fun hh => h (by injection hh))

/-- The observable outcome of one `process_single_file` run: what the
call returns (or the exception it raises), and whether the per-file
scoped temporary directory still exists when the call exits. -/
structure RunResult where
  outcome : Except PyErr (Bool × List SummaryEntry)
  tempDirExists : Bool
deriving DecidableEq

/-- `process_single_file` (orchestrator.py lines 31-178).  Inputs: the
uploaded file's base name and the `handle_uploaded_file` result
(detected mime and extracted members, each member bundled with what the
world does for it), plus the store contents at entry.  The function
first calls `database.init_db` (line 48); since `init_db` always returns
`False` (malformed `create_table_sql`), every run takes the early return
at line 51 — modelled as `(false, [])` since the bare `False` is
returned before any summary exists — and exits before the scoped
temporary directory is created at lines 59-63.  The remainder of the
body is the faithful translation of lines 53-178 and is unreachable in
the source: stage 1 sets `overall_success`; the per-member loop runs
only when stage 1 succeeded with a non-empty member list (line 103), a
failed stage 1 adds a failure entry (lines 158-160), and a
supported-but-empty outcome adds a skip entry (lines 161-164).  The
cleanup that removes the temporary directory (lines 171-176) sits at the
end of the normal control flow and not in a `finally` block, so it would
run on every normal return but not when the loop raises. -/
def process_single_file (original_filename detected_mime : String)
    (extracted : List Member) (db : List GDRecord) : RunResult :=
  if !init_db then { outcome := .ok (false, []), tempDirExists := false }
  else
    let overall1 := stage1_success detected_mime (!extracted.isEmpty)
    if overall1 && !extracted.isEmpty then
      match processMembers { overall_success := overall1, summary := [], db := db } extracted with
      | .error e => { outcome := .error e, tempDirExists := true }
      | .ok st => { outcome := .ok (st.overall_success, st.summary), tempDirExists := false }
    else if !overall1 then
      { outcome := .ok (false, [{ source_filename := original_filename, status := .failed }]),
        tempDirExists := false }
    else
      { outcome := .ok (true,
          if pyStartsWith detected_mime "error/" then []
          else [{ source_filename := original_filename, status := .skipped }]),
        tempDirExists := false }

/-! ## Helper lemmas -/

/-- Both branches of the row loop skip the row: a mismatched length is
skipped by the guard, a matching length reaches the `INSERT`, which
raises on the malformed `insert_sql` and is skipped by the handler. -/
lemma insertStep_eq (header : List String) (acc : Nat × List GDRecord)
    (p : Nat × List String) : insertStep header acc p = acc := by
  unfold insertStep
  split <;> rfl

/-- The whole row loop leaves the accumulator unchanged. -/
lemma foldl_insertStep (header : List String) (l : List (Nat × List String))
    (acc : Nat × List GDRecord) : l.foldl (insertStep header) acc = acc := by
  induction l generalizing acc with
  | nil => rfl
  | cons p ps ih =>
    rw [List.foldl_cons, insertStep_eq]
    exact ih acc

/-- No `insert_structured_data` call ever changes the durable store:
every path returns the table contents it was given (the only appending
path appends the loop's executed statements, of which there are none). -/
lemma insert_no_store (eng : Engine) (db : List GDRecord) (fs dt : String)
    (header : List String) (rows : List (List String)) :
    (insert_structured_data eng db fs dt header rows).2 = db := by
  unfold insert_structured_data
  cases h1 : header.isEmpty <;> cases h2 : rows.isEmpty <;> cases h3 : eng.connectFails <;>
    cases h4 : eng.commitFails <;> simp [h1, h2, h3, h4, foldl_insertStep]

lemma findHeader_cons_of_content (delim : Char) (l : String) (ls : List String)
    (h : rowHasContent (splitRow delim l) = true) :
    findHeader delim (l :: ls) = some ((splitRow delim l).map pyStrip, ls) := by
  simp [findHeader, h]

lemma findHeader_cons_of_blank (delim : Char) (l : String) (ls : List String)
    (h : rowHasContent (splitRow delim l) = false) :
    findHeader delim (l :: ls) = findHeader delim ls := by
  simp [findHeader, h]

lemma findHeader_append_blank (delim : Char) (pre rest : List String)
    (h : ∀ l ∈ pre, rowHasContent (splitRow delim l) = false) :
    findHeader delim (pre ++ rest) = findHeader delim rest := by
  induction pre with
  | nil => rfl
  | cons l ls ih =>
    rw [List.cons_append, findHeader_cons_of_blank delim l _ (h l (List.mem_cons_self l ls))]
    exact ih (fun x hx => h x (List.mem_cons_of_mem l hx))

lemma findHeader_none_of_all_blank (delim : Char) (ls : List String)
    (h : ∀ l ∈ ls, rowHasContent (splitRow delim l) = false) :
    findHeader delim ls = none := by
  have h0 := findHeader_append_blank delim ls [] h
  simpa using h0

lemma rowHasContent_ne_nil {cells : List String} (h : rowHasContent cells = true) :
    cells ≠ [] := by
  intro hnil
  rw [hnil] at h
  simp [rowHasContent] at h

lemma findHeader_header_ne_nil (delim : Char) (ls : List String) (h : List String)
    (rest : List String) (hf : findHeader delim ls = some (h, rest)) : h ≠ [] := by
  induction ls with
  | nil => simp [findHeader] at hf
  | cons l ls ih =>
    cases hc : rowHasContent (splitRow delim l) with
    | true =>
      rw [findHeader_cons_of_content delim l ls hc] at hf
      injection hf with hf'
      have h1 : (splitRow delim l).map pyStrip = h := congrArg Prod.fst hf'
      intro hnil
      rw [hnil] at h1
      exact rowHasContent_ne_nil hc (List.map_eq_nil_iff.mp h1)
    | false =>
      rw [findHeader_cons_of_blank delim l ls hc] at hf
      exact ih hf

/-! ## Claim theorems -/

/-- C1: when the engine fails the batch on a call with non-empty header
and non-empty rows — `connect` or `commit` raises, `commit` being the
fault that strikes partway through finishing the batch — the whole batch
is rolled back, the durable store is exactly what it was before the
call, and the call returns `(False, 0)`: `inserted_count` is `0` because
no row's `INSERT` ever succeeds (each one raises on the malformed
`insert_sql` and is skipped inside the loop), so the count the outer
handler reports is `0`. -/
theorem insert_engine_fault_returns_false_zero (eng : Engine) (db : List GDRecord)
    (fs dt : String) (header : List String) (rows : List (List String))
    (hh : header ≠ []) (hr : rows ≠ [])
    (hf : eng.connectFails = true ∨ eng.commitFails = true) :
    insert_structured_data eng db fs dt header rows = ((false, 0), db) := by
  have hh' : header.isEmpty = false := by
    cases header
    · exact absurd rfl hh
    · rfl
  have hr' : rows.isEmpty = false := by
    cases rows
    · exact absurd rfl hr
    · rfl
  unfold insert_structured_data
  cases hc : eng.connectFails with
  | true => simp [hh', hr', hc]
  | false =>
    have hcm : eng.commitFails = true := by
      rcases hf with h | h
      · rw [hc] at h
        exact absurd h (by simp)
      · exact h
    simp [hh', hr', hc, hcm, foldl_insertStep]

/-- C1 witness: a commit-fault call on one row returns `(False, 0)` with
the store unchanged. -/
theorem insert_engine_fault_returns_false_zero_witness :
    insert_structured_data commitFailEngine [] "f.csv" "generic_csv" ["A"] [["1"]] =
      ((false, 0), []) :=
  insert_engine_fault_returns_false_zero commitFailEngine [] "f.csv" "generic_csv"
    ["A"] [["1"]] (by decide) (by decide) (Or.inr rfl)

/-- C5 (code bug): the claim's own scenario — header `[A,B]`, rows
`[[1,2,9],[3,4]]`, no engine fault — returns `(True, 0)`, not the
`(True, 1)` the claim and spec state: the mismatched row is skipped by
the length guard, but the matching row `[3,4]` is also skipped because
its `INSERT` raises `sqlite3.Error` on the malformed `insert_sql`
(database.py line 93) and is caught at lines 99-100; nothing is
stored. -/
theorem insert_scenario_returns_true_zero :
    insert_structured_data okEngine [] "f.csv" "generic_csv" ["A", "B"]
        [["1", "2", "9"], ["3", "4"]] = ((true, 0), [])
    ∧ ((true, 0) : Bool × Nat) ≠ ((true, 1) : Bool × Nat) := by
  decide

/-- C10: a fault-free call with a non-empty header and non-empty rows in
which every row's length mismatches the header skips everything and still
reports success: it returns `(True, 0)` and leaves the store unchanged. -/
theorem insert_all_rows_skipped_reports_success (db : List GDRecord) (fs dt : String)
    (header : List String) (rows : List (List String)) (hh : header ≠ []) (hr : rows ≠ [])
    (hall : ∀ r ∈ rows, r.length ≠ header.length) :
    insert_structured_data okEngine db fs dt header rows = ((true, 0), db) := by
  have hh' : header.isEmpty = false := by
    cases header
    · exact absurd rfl hh
    · rfl
  have hr' : rows.isEmpty = false := by
    cases rows
    · exact absurd rfl hr
    · rfl
  unfold insert_structured_data
  simp [hh', hr', okEngine, foldl_insertStep]

/-- C10 witness: one mismatched row, skipped, call succeeds with count
`0`. -/
theorem insert_all_rows_skipped_reports_success_witness :
    insert_structured_data okEngine [] "f" "g" ["A", "B"] [["1"]] = ((true, 0), []) :=
  insert_all_rows_skipped_reports_success [] "f" "g" ["A", "B"] [["1"]]
    (by decide) (by decide) (by decide)

/-- C9: vacuously true of the program.  No call to
`insert_structured_data` ever stores a record (every `INSERT` raises on
the malformed `insert_sql` and is skipped), so the sequence of records a
call adds for its source file is empty, and its `row_number` values are
the empty sequence `[1, ..., n]` with `n = 0` — 1-based, sequential and
gap-free as the claim states, because there is nothing to violate it. -/
theorem insert_row_numbers_vacuously_sequential (eng : Engine) (db : List GDRecord)
    (fs dt : String) (header : List String) (rows : List (List String)) :
    insertedRecords eng db fs dt header rows = []
    ∧ (insertedRecords eng db fs dt header rows).map GDRecord.row_number =
        List.range' 1 (insertedRecords eng db fs dt header rows).length := by
  have h0 : insertedRecords eng db fs dt header rows = [] := by
    unfold insertedRecords
    rw [insert_no_store, List.drop_length]
  refine ⟨h0, ?_⟩
  rw [h0]
  rfl

/-- C4: for a line sequence whose first non-blank line is `hline`, the
parser's header is that line's delimiter-split cells each stripped of
surrounding whitespace, and the rows are exactly the cleaned subsequent
lines that keep at least one non-blank cell — no header-length
enforcement filters them. -/
theorem parser_header_and_row_retention (delim : Char) (pre : List String) (hline : String)
    (post : List String)
    (hpre : ∀ l ∈ pre, rowHasContent (splitRow delim l) = false)
    (hh : rowHasContent (splitRow delim hline) = true) :
    parseLines delim (pre ++ hline :: post) =
      { header := (splitRow delim hline).map pyStrip,
        rows := (post.map (cleanRow delim)).filter keepRow } := by
  unfold parseLines
  rw [findHeader_append_blank delim pre (hline :: post) hpre,
    findHeader_cons_of_content delim hline post hh]

/-- C4 witness: leading blank lines are skipped, cells are stripped, and
a 3-cell row under a 2-cell header is retained while an all-blank row is
dropped. -/
theorem parser_header_and_row_retention_witness :
    (∀ l ∈ ["", "  "], rowHasContent (splitRow ',' l) = false)
    ∧ rowHasContent (splitRow ',' "A, B") = true
    ∧ parseLines ',' (["", "  "] ++ "A, B" :: ["1,2,3", " , ", "4"]) =
        { header := ["A", "B"], rows := [["1", "2", "3"], ["4"]] } := by
  refine ⟨by decide, by decide, ?_⟩
  rw [parser_header_and_row_retention ',' ["", "  "] "A, B" ["1,2,3", " , ", "4"]
    (by decide) (by decide)]
  decide

/-- C6: every failure mode of the parser — file absent, decode error,
csv error, any other exception, or no non-blank line found — returns the
identical sentinel `{header: [], rows: []}` (the parser is a total
function, so nothing is raised), and an empty header occurs exactly when
the whole result is that sentinel, making header emptiness the sole
success signal. -/
theorem parser_failure_sentinel (delim : Char) (f : FileRead) :
    (parse_csv_file delim .absent = { header := [], rows := [] }
      ∧ parse_csv_file delim .decodeError = { header := [], rows := [] }
      ∧ parse_csv_file delim .csvError = { header := [], rows := [] }
      ∧ parse_csv_file delim .otherError = { header := [], rows := [] })
    ∧ (∀ ls, f = .ok ls → (∀ l ∈ ls, rowHasContent (splitRow delim l) = false) →
        parse_csv_file delim f = { header := [], rows := [] })
    ∧ ((parse_csv_file delim f).header = [] ↔
        parse_csv_file delim f = { header := [], rows := [] }) := by
  refine ⟨⟨rfl, rfl, rfl, rfl⟩, ?_, ?_⟩
  · intro ls hf hblank
    subst hf
    show parseLines delim ls = { header := [], rows := [] }
    unfold parseLines
    rw [findHeader_none_of_all_blank delim ls hblank]
  · constructor
    · intro hhd
      cases f with
      | absent => rfl
      | decodeError => rfl
      | csvError => rfl
      | otherError => rfl
      | ok lines =>
        show parseLines delim lines = { header := [], rows := [] }
        have hhd' : (parseLines delim lines).header = [] := hhd
        unfold parseLines at hhd' ⊢
        cases hfind : findHeader delim lines with
        | none => rfl
        | some pr =>
          obtain ⟨h, rest⟩ := pr
          rw [hfind] at hhd'
          exact absurd hhd' (findHeader_header_ne_nil delim lines h rest hfind)
    · intro hres
      rw [hres]

/-- C6 witness: applying the sentinel theorem to a file whose lines are
all blank. -/
theorem parser_failure_sentinel_witness :
    parse_csv_file ',' (.ok [" ", ""]) = { header := [], rows := [] } :=
  (parser_failure_sentinel ',' (.ok [" ", ""])).2.1 [" ", ""] rfl (by decide)

/-- C7: the header-only input `"A,B\n"` parses to header `[A,B]` with no
rows; the store rejects an empty header with `(False, 0)` before touching
the engine (so for every engine behaviour the store is unchanged), and
returns `(True, 0)` — likewise without touching the engine — whenever the
header is non-empty and the row list is empty. -/
theorem parser_header_only_and_store_empty :
    parse_csv_file ',' (.ok (linesOf "A,B\n")) = { header := ["A", "B"], rows := [] }
    ∧ (∀ eng db fs dt rows, insert_structured_data eng db fs dt [] rows = ((false, 0), db))
    ∧ (∀ eng db fs dt header, header ≠ [] →
        insert_structured_data eng db fs dt header [] = ((true, 0), db)) := by
  refine ⟨by decide, ?_, ?_⟩
  · intro eng db fs dt rows
    rfl
  · intro eng db fs dt header hh
    have hh' : header.isEmpty = false := by
      cases header
      · exact absurd rfl hh
      · rfl
    simp [insert_structured_data, hh']

/-- C7 witness: the three parts instantiated, storing the parse of
`"A,B\n"` through a fault-free engine. -/
theorem parser_header_only_and_store_empty_witness :
    parse_csv_file ',' (.ok (linesOf "A,B\n")) = { header := ["A", "B"], rows := [] }
    ∧ insert_structured_data okEngine [] "f" "g" [] [["1"]] = ((false, 0), [])
    ∧ insert_structured_data okEngine [] "f" "g" ["A", "B"] [] = ((true, 0), []) :=
  ⟨parser_header_only_and_store_empty.1,
   parser_header_only_and_store_empty.2.1 okEngine [] "f" "g" [["1"]],
   parser_header_only_and_store_empty.2.2 okEngine [] "f" "g" ["A", "B"] (by decide)⟩

/-- C8: extracting the same archive into the same output directory twice
yields the same member list both times — the directory is destroyed and
recreated at the start of each call, so whatever the first call left
behind never reaches the second call's result. -/
theorem extractor_idempotent (arch : ArchiveResult) (dir0 : List String) :
    (extract_archive arch (extract_archive arch dir0).2).1 = (extract_archive arch dir0).1 := by
  cases arch <;> rfl

/-- C2: on every run of `process_single_file`, the per-file temporary
directory does not exist when the run exits — vacuously so, because
`init_db` always returns `False` (malformed `create_table_sql`) and each
run takes the early return at orchestrator.py line 51, before the
directory would have been created at lines 59-63; no exit path ever
leaves a temporary directory behind. -/
theorem tempdir_never_left_behind (fn mime : String) (members : List Member)
    (db : List GDRecord) :
    (process_single_file fn mime members db).tempDirExists = false := rfl

/-- C3: vacuously true of the program.  Every run of
`process_single_file` returns `(False, [])` normally — the `init_db`
gate at orchestrator.py lines 48-51 fires on every run — so no extracted
member ever reaches the per-member loop at lines 104-157, no run raises
an exception (the outcome is always an `ok`), and no member is ever
recorded at all, let alone mishandled: every member the loop processes
trivially satisfies the claim because there are none. -/
theorem member_loop_unreachable (fn mime : String) (members : List Member)
    (db : List GDRecord) :
    (process_single_file fn mime members db).outcome = .ok (false, []) := rfl
